import Mathlib

/-!
Shallow embedding of the Azure DNS challenge provider: the file
providers/dns/azure/provider.go, the package configuration file of package
azure (NewDNSProvider, NewDNSProviderConfig, Config), and the vendored
convert.go helpers.

Modelling conventions.  Go pointers become Option, Go errors become explicit
error values, and every external call (Azure SDK client calls, dns01 helpers,
environment-variable lookups, credential construction) is an oracle supplied
through an environment structure, so a run of Present or CleanUp is a pure
function of its oracles.  The record-set backend calls a run performs are
returned as a trace, so statements about which backend calls happen are
expressible.  The Go code collects the unique TXT values in a map from string
to the empty struct; its key set is modelled as a Finset String.  Go map
iteration order is unspecified; the embedding enumerates the Finset with
toList, and every statement proved below is insensitive to that order.
-/

set_option linter.unusedVariables false

namespace AzureDNS

/-- Go errors reaching this provider: azcore.ResponseError carries an HTTP
status code, any other error is modelled by its message alone.  In the source,
errors.As with a ResponseError target succeeds exactly on the response case. -/
inductive AzError where
  | response (statusCode : Nat) (msg : String)
  | other (msg : String)
deriving DecidableEq

def AzError.message : AzError → String
  | .response _ m => m
  | .other m => m

/-- The not-found test of provider.go lines 53-56: errors.As succeeds on a
ResponseError and its StatusCode equals http.StatusNotFound (404). -/
def isNotFoundError : AzError → Bool
  | .response code _ => code == 404
  | .other _ => false

/-- The error wrappers the source uses: azure is fmt.Errorf with the
"azure: %w" format used at every return site of provider.go, azureMsg is
errors.New or fmt.Errorf of an "azure: "-prefixed message in the construction
code, and credentialFailed is the fmt.Errorf wrapper
"azidentity.NewEnvironmentCredential failed: %w" of NewDNSProviderConfig. -/
inductive ProviderError where
  | azure (e : AzError)
  | azureMsg (msg : String)
  | credentialFailed (msg : String)
deriving DecidableEq

/-- Rendering of a wrapped error to its Go Error() string. -/
def ProviderError.render : ProviderError → String
  | .azure e => "azure: " ++ e.message
  | .azureMsg m => "azure: " ++ m
  | .credentialFailed m => "azidentity.NewEnvironmentCredential failed: " ++ m

/-- armdns.TxtRecord: Value is a slice of string pointers. -/
structure TxtRecord where
  Value : List (Option String)
deriving DecidableEq

/-- armdns.RecordSetProperties, restricted to the fields the source touches. -/
structure RecordSetProperties where
  TTL : Option Int
  TxtRecords : Option (List TxtRecord)
deriving DecidableEq

/-- armdns.RecordSet, restricted to the fields the source touches. -/
structure RecordSet where
  Name : Option String
  Properties : Option RecordSetProperties
deriving DecidableEq

/-- The Go zero value of the record set embedded in the Get response: when
rsc.Get returns an error, rset keeps this zero value, with nil Properties. -/
def RecordSet.zero : RecordSet := ⟨none, none⟩

/-- cloud.Configuration, identified by its authority host. -/
structure CloudConfiguration where
  ActiveDirectoryAuthorityHost : String
deriving DecidableEq

def AzurePublic : CloudConfiguration := ⟨"https://login.microsoftonline.com/"⟩

def AzureChina : CloudConfiguration := ⟨"https://login.chinacloudapi.cn/"⟩

def AzureGovernment : CloudConfiguration := ⟨"https://login.microsoftonline.us/"⟩

/-- The inline cloud.Configuration built for the "german" environment. -/
def GermanCloud : CloudConfiguration := ⟨"https://login.microsoftonline.de/"⟩

/-- Config of the azure package.  Durations are nanosecond counts
(time.Duration); HTTPClient is a pointer whose nil-ness is what the source
inspects, modelled as Option Unit. -/
structure Config where
  ClientID : String
  ClientSecret : String
  TenantID : String
  SubscriptionID : String
  ResourceGroup : String
  PrivateZone : Bool
  MetadataEndpoint : String
  CloudConfig : CloudConfiguration
  PropagationTimeout : Int
  PollingInterval : Int
  TTL : Int
  HTTPClient : Option Unit
deriving DecidableEq

/-- Results of the env.GetOrFile / env.GetOrDefault* lookups the construction
code performs.  GetOrFile yields "" when the variable is unset; the
GetOrDefault* results are Options so the defaulting below is explicit. -/
structure EnvVars where
  environment : String
  subscriptionID : String
  resourceGroup : String
  clientSecret : String
  clientID : String
  tenantID : String
  privateZone : Option Bool
  zoneName : String
  ttl : Option Int
  propagationTimeout : Option Int
  pollingInterval : Option Int
deriving DecidableEq

/-- NewDefaultConfig: TTL defaults to 60, propagation timeout to 2 minutes,
polling interval to 2 seconds, cloud configuration to AzurePublic. -/
def NewDefaultConfig (ev : EnvVars) : Config :=
  { ClientID := ""
    ClientSecret := ""
    TenantID := ""
    SubscriptionID := ""
    ResourceGroup := ""
    PrivateZone := false
    MetadataEndpoint := ""
    CloudConfig := AzurePublic
    PropagationTimeout := ev.propagationTimeout.getD 120000000000
    PollingInterval := ev.pollingInterval.getD 2000000000
    TTL := ev.ttl.getD 60
    HTTPClient := none }

/-- azidentity.EnvironmentCredential: the model records the cloud
configuration the credential was constructed with. -/
structure EnvironmentCredential where
  cloud : CloudConfiguration
deriving DecidableEq

/-- The inner provider value: configuration plus the shared credential. -/
structure dnsProvider where
  config : Config
  authorizer : EnvironmentCredential
deriving DecidableEq

/-- The exported DNSProvider wrapping the inner provider. -/
structure DNSProvider where
  provider : dnsProvider
deriving DecidableEq

/-- Oracle for azidentity.NewEnvironmentCredential: none means the call
succeeds, some m means it fails with message m. -/
structure CredentialOracle where
  failure : Option String
deriving DecidableEq

/-- azidentity.NewEnvironmentCredential: on success the credential records
the cloud configuration of the client options it was built with. -/
def NewEnvironmentCredential (o : CredentialOracle) (opts : CloudConfiguration) :
    Except String EnvironmentCredential :=
  match o.failure with
  | some m => .error m
  | none => .ok ⟨opts⟩

/-- http.DefaultClient, as a non-nil pointer. -/
def defaultHTTPClient : Option Unit := some ()

/-- The nil-client defaulting at the head of NewDNSProviderConfig. -/
def fillHTTPClient (c : Config) : Config :=
  if c.HTTPClient = none then { c with HTTPClient := defaultHTTPClient } else c

/-- NewDNSProviderConfig.  Nil config and missing identifiers are rejected
with azure-prefixed messages; the credential is constructed with client
options whose Cloud field is the hardcoded cloud.AzureChina, and a credential
failure is wrapped with the azidentity prefix. -/
def NewDNSProviderConfig (o : CredentialOracle) (config : Option Config) :
    Except ProviderError DNSProvider :=
  match config with
  | none => .error (.azureMsg "the configuration of the DNS provider is nil")
  | some cfg0 =>
    let cfg := fillHTTPClient cfg0
    if cfg.SubscriptionID = "" then .error (.azureMsg "SubscriptionID is missing")
    else if cfg.ResourceGroup = "" then .error (.azureMsg "ResourceGroup is missing")
    else
      match NewEnvironmentCredential o AzureChina with
      | .error m => .error (.credentialFailed m)
      | .ok cred => .ok ⟨⟨cfg, cred⟩⟩

/-- The switch of NewDNSProvider mapping AZURE_ENVIRONMENT to a cloud
configuration; none models the default branch. -/
def envCloud : String → Option CloudConfiguration
  | "china" => some AzureChina
  | "german" => some GermanCloud
  | "public" => some AzurePublic
  | "usgovernment" => some AzureGovernment
  | _ => none

/-- The field assignments NewDNSProvider performs after the environment
switch, copying the env.GetOrFile results into the configuration. -/
def applyEnvFields (c : Config) (ev : EnvVars) : Config :=
  { c with
    SubscriptionID := ev.subscriptionID
    ResourceGroup := ev.resourceGroup
    ClientSecret := ev.clientSecret
    ClientID := ev.clientID
    TenantID := ev.tenantID
    PrivateZone := ev.privateZone.getD false }

/-- NewDNSProvider: default configuration, optional environment-selected
cloud, env-derived fields, then NewDNSProviderConfig. -/
def NewDNSProvider (o : CredentialOracle) (ev : EnvVars) :
    Except ProviderError DNSProvider :=
  let config := NewDefaultConfig ev
  if ev.environment ≠ "" then
    match envCloud ev.environment with
    | none => .error (.azureMsg ("unknown environment " ++ ev.environment))
    | some environment =>
        NewDNSProviderConfig o
          (some (applyEnvFields { config with CloudConfig := environment } ev))
  else
    NewDNSProviderConfig o (some (applyEnvFields config ev))

/-- armdns.Zone, restricted to the Name field the source reads. -/
structure Zone where
  Name : Option String
deriving DecidableEq

/-- to.String from the vendored convert.go: a nil pointer becomes "". -/
def toStr : Option String → String
  | some s => s
  | none => ""

/-- Modelled from the spec: dns01.UnFqdn is a consumed external primitive not
under src; per spec section 4.1 step 4 it normalizes away the trailing
separator of a zone name, i.e. it removes one trailing dot when present. -/
def UnFqdn (s : String) : String :=
  match s.data.getLast? with
  | some c => if c = '.' then ⟨s.data.dropLast⟩ else s
  | none => s

/-- The external calls getHostedZoneID can perform, recorded as a trace. -/
inductive ZoneCall where
  | findZoneByFqdn (fqdn : String)
  | zonesGet (resourceGroup zoneName : String)
deriving DecidableEq

/-- Oracles for zone resolution: the AZURE_ZONE_NAME lookup result, the
dns01.FindZoneByFqdn primitive, zones-client construction, and the
zones-client Get call. -/
structure ZoneEnv where
  zoneNameEnv : String
  findZoneByFqdn : String → Except AzError String
  newZonesClient : Except AzError Unit
  zonesGet : String → String → Except AzError Zone

/-- getHostedZoneID of provider.go: a non-empty AZURE_ZONE_NAME is returned
directly; otherwise the authoritative zone is discovered, the zones client is
constructed, and the zone is fetched by its un-fqdn-ed name, returning the
backend zone name via to.String. -/
def getHostedZoneID (cfg : Config) (env : ZoneEnv) (fqdn : String) :
    Except AzError String × List ZoneCall :=
  if env.zoneNameEnv ≠ "" then (.ok env.zoneNameEnv, [])
  else
    match env.findZoneByFqdn fqdn with
    | .error e => (.error e, [.findZoneByFqdn fqdn])
    | .ok authZone =>
      match env.newZonesClient with
      | .error e => (.error e, [.findZoneByFqdn fqdn])
      | .ok _ =>
        match env.zonesGet cfg.ResourceGroup (UnFqdn authZone) with
        | .error e =>
            (.error e,
             [.findZoneByFqdn fqdn, .zonesGet cfg.ResourceGroup (UnFqdn authZone)])
        | .ok zone =>
            (.ok (toStr zone.Name),
             [.findZoneByFqdn fqdn, .zonesGet cfg.ResourceGroup (UnFqdn authZone)])

/-- The loop body condition of provider.go lines 64-66: a TXT entry
contributes its first string when the slice is non-empty and that first
pointer is non-nil. -/
def firstString (r : TxtRecord) : Option String :=
  match r.Value with
  | some s :: _ => some s
  | _ => none

/-- The first strings contributed by a list of TXT entries, in order. -/
def firstStrings (l : List TxtRecord) : List String := l.filterMap firstString

/-- The values the merge loop of Present extracts from an existing record
set: nothing when Properties or TxtRecords is nil, else the first strings. -/
def RecordSet.extractValues (r : RecordSet) : List String :=
  match r.Properties with
  | none => []
  | some props =>
    match props.TxtRecords with
    | none => []
    | some records => firstStrings records

/-- Insertion into the uniqRecords map: a key already present is left alone,
a new key is added.  The enumeration order of a Go map is unspecified; the
model fixes insertion order, and every statement proved below compares value
sets, which are insensitive to that choice. -/
def uniqInsert (l : List String) (v : String) : List String :=
  if v ∈ l then l else l ++ [v]

/-- The keys of the uniqRecords map of Present: the challenge value inserted
first, then every extracted existing value. -/
def buildUniqRecords (value : String) (rset : RecordSet) : List String :=
  rset.extractValues.foldl uniqInsert [value]

/-- The txtRecords slice rebuilt from the map keys: one single-string TXT
entry per unique value. -/
def mkTxtRecords (vs : List String) : List TxtRecord :=
  vs.map (fun txt => ⟨[some txt]⟩)

/-- The armdns.RecordSet Present writes back: the subdomain name, the
configured TTL, and the rebuilt single-string TXT entries. -/
def mkRecordSet (subDomain : String) (ttl : Int) (vs : List String) : RecordSet :=
  ⟨some subDomain, some ⟨some ttl, some (mkTxtRecords vs)⟩⟩

/-- The record-set backend calls a Present or CleanUp run performs. -/
inductive RecCall where
  | get (resourceGroup zone subDomain : String)
  | createOrUpdate (resourceGroup zone subDomain : String) (rset : RecordSet)
  | delete (resourceGroup zone subDomain : String)
deriving DecidableEq

/-- Oracles for a Present or CleanUp run: zone resolution, the dns01
GetRecord derivation, record-sets client construction, the dns01
ExtractSubDomain primitive, and the three record-set backend calls. -/
structure Env where
  zoneEnv : ZoneEnv
  getRecord : String → String → String × String
  newRecordSetsClient : Except AzError Unit
  extractSubDomain : String → String → Except AzError String
  recordSetsGet : String → String → String → Except AzError RecordSet
  createOrUpdate : String → String → String → RecordSet → Except AzError Unit
  delete : String → String → String → Except AzError Unit

/-- The tail of Present from line 60 on: build the unique value set, rebuild
the record set, and issue CreateOrUpdate, whose failure is azure-wrapped. -/
def presentUpsert (cfg : Config) (env : Env) (zone subDomain value : String)
    (rset : RecordSet) : Except ProviderError Unit × List RecCall :=
  let vs := buildUniqRecords value rset
  let rsNew := mkRecordSet subDomain cfg.TTL vs
  match env.createOrUpdate cfg.ResourceGroup zone subDomain rsNew with
  | .error e =>
      (.error (.azure e),
       [.get cfg.ResourceGroup zone subDomain,
        .createOrUpdate cfg.ResourceGroup zone subDomain rsNew])
  | .ok _ =>
      (.ok (),
       [.get cfg.ResourceGroup zone subDomain,
        .createOrUpdate cfg.ResourceGroup zone subDomain rsNew])

/-- Present of provider.go: derive the record, resolve the zone, build the
record-sets client, derive the subdomain, read the current record set
(tolerating only a 404 response, in which case the zero record set is used),
then merge and upsert.  Every error is azure-wrapped and returned at once. -/
def Present (cfg : Config) (env : Env) (domain token keyAuth : String) :
    Except ProviderError Unit × List RecCall :=
  let fqdn := (env.getRecord domain keyAuth).1
  let value := (env.getRecord domain keyAuth).2
  match (getHostedZoneID cfg env.zoneEnv fqdn).1 with
  | .error e => (.error (.azure e), [])
  | .ok zone =>
    match env.newRecordSetsClient with
    | .error e => (.error (.azure e), [])
    | .ok _ =>
      match env.extractSubDomain fqdn zone with
      | .error e => (.error (.azure e), [])
      | .ok subDomain =>
        match env.recordSetsGet cfg.ResourceGroup zone subDomain with
        | .error e =>
          if isNotFoundError e then
            presentUpsert cfg env zone subDomain value RecordSet.zero
          else (.error (.azure e), [.get cfg.ResourceGroup zone subDomain])
        | .ok rset => presentUpsert cfg env zone subDomain value rset

/-- CleanUp of provider.go: derive the record, resolve the zone, derive the
subdomain, build the record-sets client, then delete the whole TXT record
set.  Every error, the delete error included, is azure-wrapped and returned
at once: there is no not-found special-casing on this path. -/
def CleanUp (cfg : Config) (env : Env) (domain token keyAuth : String) :
    Except ProviderError Unit × List RecCall :=
  let fqdn := (env.getRecord domain keyAuth).1
  match (getHostedZoneID cfg env.zoneEnv fqdn).1 with
  | .error e => (.error (.azure e), [])
  | .ok zone =>
    match env.extractSubDomain fqdn zone with
    | .error e => (.error (.azure e), [])
    | .ok subDomain =>
      match env.newRecordSetsClient with
      | .error e => (.error (.azure e), [])
      | .ok _ =>
        match env.delete cfg.ResourceGroup zone subDomain with
        | .error e => (.error (.azure e), [.delete cfg.ResourceGroup zone subDomain])
        | .ok _ => (.ok (), [.delete cfg.ResourceGroup zone subDomain])

/-- Timeout: the statically configured pair, pure. -/
def Timeout (cfg : Config) : Int × Int :=
  (cfg.PropagationTimeout, cfg.PollingInterval)

/-! ## Backend state semantics

For the algebraic claims the backend is a single TXT record set slot at the
relevant (zone, subDomain) key: reads serve its content (a 404 response when
it is empty, matching the Azure API), upserts succeed, and zone resolution
and subdomain derivation stay arbitrary oracles. -/

/-- The set of TXT values stored in a backend slot. -/
def stateValues : Option RecordSet → Finset String
  | none => ∅
  | some r => r.extractValues.toFinset

/-- A healthy backend read of the slot: its record set, or a 404 response
when the slot is empty. -/
def backendGet (st : Option RecordSet) : Except AzError RecordSet :=
  match st with
  | some r => .ok r
  | none => .error (.response 404 "the record set was not found")

/-- The run environment over a backend slot: reads serve the slot, writes
and deletes succeed, the remaining oracles are arbitrary. -/
def envOfState (zenv : ZoneEnv) (gr : String → String → String × String)
    (es : String → String → Except AzError String) (st : Option RecordSet) : Env :=
  { zoneEnv := zenv
    getRecord := gr
    newRecordSetsClient := .ok ()
    extractSubDomain := es
    recordSetsGet := fun _ _ _ => backendGet st
    createOrUpdate := fun _ _ _ _ => .ok ()
    delete := fun _ _ _ => .ok () }

/-- The record set a trace wrote with CreateOrUpdate, when any. -/
def writtenRecord : List RecCall → Option RecordSet
  | [] => none
  | .createOrUpdate _ _ _ r :: _ => some r
  | _ :: rest => writtenRecord rest

/-- The backend slot after one Present run: the written record set when the
run reached CreateOrUpdate, the unchanged slot otherwise. -/
def stepPresent (cfg : Config) (zenv : ZoneEnv)
    (gr : String → String → String × String)
    (es : String → String → Except AzError String)
    (domain token keyAuth : String) (st : Option RecordSet) : Option RecordSet :=
  match writtenRecord (Present cfg (envOfState zenv gr es st) domain token keyAuth).2 with
  | some r => some r
  | none => st

/-! ## Helper lemmas -/

lemma toFinset_uniqInsert (l : List String) (v : String) :
    (uniqInsert l v).toFinset = insert v l.toFinset := by
  by_cases h : v ∈ l
  · simp [uniqInsert, h, List.mem_toFinset.2 h, Finset.insert_eq_self.2]
  · simp [uniqInsert, h, List.toFinset_append, Finset.union_comm, Finset.insert_eq]

lemma toFinset_foldl_uniqInsert (l : List String) (init : List String) :
    (l.foldl uniqInsert init).toFinset = init.toFinset ∪ l.toFinset := by
  induction l generalizing init with
  | nil => simp
  | cons a l ih =>
      simp [List.foldl_cons, ih, toFinset_uniqInsert, Finset.insert_union,
        Finset.union_insert]

lemma toFinset_buildUniqRecords (value : String) (rset : RecordSet) :
    (buildUniqRecords value rset).toFinset = insert value rset.extractValues.toFinset := by
  simp [buildUniqRecords, toFinset_foldl_uniqInsert, Finset.insert_eq]

lemma firstStrings_mkTxtRecords (vs : List String) :
    firstStrings (mkTxtRecords vs) = vs := by
  induction vs with
  | nil => rfl
  | cons a l ih =>
      simp only [mkTxtRecords, List.map_cons, firstStrings, List.filterMap_cons] at ih ⊢
      simpa [firstString] using ih

lemma extractValues_mkRecordSet (n : String) (ttl : Int) (vs : List String) :
    (mkRecordSet n ttl vs).extractValues = vs := by
  simp [mkRecordSet, RecordSet.extractValues, firstStrings_mkTxtRecords]

lemma stateValues_some_mkRecordSet (n : String) (ttl : Int) (vs : List String) :
    stateValues (some (mkRecordSet n ttl vs)) = vs.toFinset := by
  simp [stateValues, extractValues_mkRecordSet]

/-- The slot content seen by the merge: the record set itself, or the Go zero
value after a 404 read. -/
lemma buildUniq_getD (v : String) (st : Option RecordSet) :
    ((buildUniqRecords v (st.getD RecordSet.zero)).toFinset : Finset String)
      = insert v (stateValues st) := by
  cases st <;>
    simp [toFinset_buildUniqRecords, stateValues, RecordSet.zero, RecordSet.extractValues]

/-- Closed form of one Present step over a backend slot. -/
lemma stepPresent_eq (cfg : Config) (zenv : ZoneEnv)
    (gr : String → String → String × String)
    (es : String → String → Except AzError String)
    (d t k : String) (st : Option RecordSet) :
    stepPresent cfg zenv gr es d t k st =
      match (getHostedZoneID cfg zenv (gr d k).1).1 with
      | .error _ => st
      | .ok zone =>
        match es (gr d k).1 zone with
        | .error _ => st
        | .ok subDomain =>
            some (mkRecordSet subDomain cfg.TTL
              (buildUniqRecords (gr d k).2 (st.getD RecordSet.zero))) := by
  cases hz : (getHostedZoneID cfg zenv (gr d k).1).1 with
  | error e =>
      simp [stepPresent, Present, envOfState, hz, writtenRecord]
  | ok zone =>
      cases hes : es (gr d k).1 zone with
      | error e =>
          simp [stepPresent, Present, envOfState, hz, hes, writtenRecord]
      | ok subDomain =>
          cases st <;>
            simp [stepPresent, Present, envOfState, hz, hes, backendGet,
              isNotFoundError, presentUpsert, writtenRecord]

/-! ## Concrete fixtures -/

/-- A valid configuration; its CloudConfig is deliberately AzurePublic. -/
def cfgW : Config :=
  { ClientID := ""
    ClientSecret := ""
    TenantID := ""
    SubscriptionID := "subscription-1"
    ResourceGroup := "rg"
    PrivateZone := false
    MetadataEndpoint := ""
    CloudConfig := AzurePublic
    PropagationTimeout := 120000000000
    PollingInterval := 2000000000
    TTL := 60
    HTTPClient := none }

/-- Zone oracles with the override set; the discovery oracles would fail if
they were consulted. -/
def zenvW : ZoneEnv :=
  { zoneNameEnv := "example.com"
    findZoneByFqdn := fun _ => .error (.other "discovery should not run")
    newZonesClient := .ok ()
    zonesGet := fun _ _ => .error (.other "zones get should not run") }

/-- Zone oracles with an override carrying a trailing dot. -/
def zenvCustom : ZoneEnv :=
  { zenvW with zoneNameEnv := "custom.zone." }

/-- Zone oracles with no override: discovery yields an fqdn-style zone name
and the backend get-zone call succeeds. -/
def zenvDisc : ZoneEnv :=
  { zoneNameEnv := ""
    findZoneByFqdn := fun _ => .ok "example.com."
    newZonesClient := .ok ()
    zonesGet := fun _ _ => .ok ⟨some "example.com"⟩ }

/-- A GetRecord oracle: the challenge fqdn is fixed, the value is the
keyAuth-derived input itself. -/
def grW : String → String → String × String :=
  fun _ keyAuth => ("_acme-challenge.example.com.", keyAuth)

/-- An ExtractSubDomain oracle returning the challenge label. -/
def esW : String → String → Except AzError String :=
  fun _ _ => .ok "_acme-challenge"

/-! ## Claim theorems -/

/-- C5: for every FQDN, when the operator zone-name override is set
(non-empty), zone resolution returns that override value directly and
performs neither the external FQDN-to-zone discovery nor the backend
get-zone verification call: its external-call trace is empty. -/
theorem getHostedZoneID_override_fast_path (cfg : Config) (env : ZoneEnv)
    (fqdn : String) (h : env.zoneNameEnv ≠ "") :
    getHostedZoneID cfg env fqdn = (.ok env.zoneNameEnv, []) := by
  simp [getHostedZoneID, h]

theorem getHostedZoneID_override_fast_path_witness :
    zenvCustom.zoneNameEnv ≠ "" ∧
    getHostedZoneID cfgW zenvCustom "_acme-challenge.example.com." =
      (.ok "custom.zone.", []) :=
  ⟨by decide,
   getHostedZoneID_override_fast_path cfgW zenvCustom "_acme-challenge.example.com."
     (by decide)⟩

/-- C8: a set zone-name override is returned verbatim, with no
trailing-separator normalization, while the discovery path strips the
trailing dot from the discovered zone name (UnFqdn) before the backend
get-zone lookup. -/
theorem getHostedZoneID_verbatim_override_unfqdn_discovery
    (cfg : Config) (env : ZoneEnv) (fqdn authZone : String) :
    (env.zoneNameEnv ≠ "" → (getHostedZoneID cfg env fqdn).1 = .ok env.zoneNameEnv)
    ∧ (env.zoneNameEnv = "" → env.findZoneByFqdn fqdn = .ok authZone →
        env.newZonesClient = .ok () →
        ZoneCall.zonesGet cfg.ResourceGroup (UnFqdn authZone)
          ∈ (getHostedZoneID cfg env fqdn).2) := by
  constructor
  · intro h
    simp [getHostedZoneID, h]
  · intro h0 h1 h2
    cases hres : env.zonesGet cfg.ResourceGroup (UnFqdn authZone) <;>
      simp [getHostedZoneID, h0, h1, h2, hres]

theorem getHostedZoneID_verbatim_override_unfqdn_discovery_witness :
    "custom.zone.".data.getLast? = some '.' ∧
    (getHostedZoneID cfgW zenvCustom "_acme-challenge.example.com.").1 =
      .ok "custom.zone." ∧
    ZoneCall.zonesGet "rg" "example.com"
      ∈ (getHostedZoneID cfgW zenvDisc "_acme-challenge.example.com.").2 := by
  refine ⟨by decide, ?_, ?_⟩
  · exact (getHostedZoneID_verbatim_override_unfqdn_discovery cfgW zenvCustom
      "_acme-challenge.example.com." "unused").1 (by decide)
  · exact (getHostedZoneID_verbatim_override_unfqdn_discovery cfgW zenvDisc
      "_acme-challenge.example.com." "example.com.").2 rfl rfl rfl

/-- C3: Present is idempotent on the record-set value set: over any backend
slot and any oracles, running Present twice stores the same TXT value set as
running it once. -/
theorem present_idempotent_value_set (cfg : Config) (zenv : ZoneEnv)
    (gr : String → String → String × String)
    (es : String → String → Except AzError String)
    (d t k : String) (st : Option RecordSet) :
    stateValues (stepPresent cfg zenv gr es d t k
        (stepPresent cfg zenv gr es d t k st))
      = stateValues (stepPresent cfg zenv gr es d t k st) := by
  cases hz : (getHostedZoneID cfg zenv (gr d k).1).1 with
  | error e =>
      have h1 : stepPresent cfg zenv gr es d t k st = st := by
        rw [stepPresent_eq]; simp [hz]
      rw [h1, h1]
  | ok zone =>
      cases hes : es (gr d k).1 zone with
      | error e =>
          have h1 : stepPresent cfg zenv gr es d t k st = st := by
            rw [stepPresent_eq]; simp [hz, hes]
          rw [h1, h1]
      | ok subDomain =>
          have h1 : stepPresent cfg zenv gr es d t k st
              = some (mkRecordSet subDomain cfg.TTL
                  (buildUniqRecords (gr d k).2 (st.getD RecordSet.zero))) := by
            rw [stepPresent_eq]; simp [hz, hes]
          have h2 : stepPresent cfg zenv gr es d t k
              (stepPresent cfg zenv gr es d t k st)
              = some (mkRecordSet subDomain cfg.TTL
                  (buildUniqRecords (gr d k).2
                    (mkRecordSet subDomain cfg.TTL
                      (buildUniqRecords (gr d k).2 (st.getD RecordSet.zero))))) := by
            rw [stepPresent_eq cfg zenv gr es d t k
              (stepPresent cfg zenv gr es d t k st), h1]
            simp [hz, hes]
          rw [h2, h1]
          simp [stateValues, extractValues_mkRecordSet, toFinset_buildUniqRecords]

/-- C4: the value set Present stores equals the union of the new challenge
value with the values extracted from the existing record set; hence Present
with value A then Present with value B on the same record name stores a
record set containing both A and B. -/
theorem present_additive (cfg : Config) (zenv : ZoneEnv)
    (gr : String → String → String × String)
    (es : String → String → Except AzError String)
    (d t1 t2 k1 k2 fqdn zone subDomain A B : String) (st : Option RecordSet)
    (hg1 : gr d k1 = (fqdn, A)) (hg2 : gr d k2 = (fqdn, B))
    (hz : (getHostedZoneID cfg zenv fqdn).1 = .ok zone)
    (hs : es fqdn zone = .ok subDomain) :
    stateValues (stepPresent cfg zenv gr es d t1 k1 st) = insert A (stateValues st)
    ∧ stateValues (stepPresent cfg zenv gr es d t2 k2
        (stepPresent cfg zenv gr es d t1 k1 st))
        = insert B (insert A (stateValues st))
    ∧ A ∈ stateValues (stepPresent cfg zenv gr es d t2 k2
        (stepPresent cfg zenv gr es d t1 k1 st))
    ∧ B ∈ stateValues (stepPresent cfg zenv gr es d t2 k2
        (stepPresent cfg zenv gr es d t1 k1 st)) := by
  have h1 : stepPresent cfg zenv gr es d t1 k1 st
      = some (mkRecordSet subDomain cfg.TTL
          (buildUniqRecords A (st.getD RecordSet.zero))) := by
    rw [stepPresent_eq]; simp [hg1, hz, hs]
  have hv1 : stateValues (stepPresent cfg zenv gr es d t1 k1 st)
      = insert A (stateValues st) := by
    rw [h1, stateValues_some_mkRecordSet, buildUniq_getD]
  have h2 : stepPresent cfg zenv gr es d t2 k2
      (stepPresent cfg zenv gr es d t1 k1 st)
      = some (mkRecordSet subDomain cfg.TTL
          (buildUniqRecords B (mkRecordSet subDomain cfg.TTL
            (buildUniqRecords A (st.getD RecordSet.zero))))) := by
    rw [stepPresent_eq cfg zenv gr es d t2 k2
      (stepPresent cfg zenv gr es d t1 k1 st), h1]
    simp [hg2, hz, hs]
  have hv2 : stateValues (stepPresent cfg zenv gr es d t2 k2
      (stepPresent cfg zenv gr es d t1 k1 st))
      = insert B (insert A (stateValues st)) := by
    rw [h2, stateValues_some_mkRecordSet, toFinset_buildUniqRecords,
      extractValues_mkRecordSet, buildUniq_getD]
  refine ⟨hv1, hv2, ?_, ?_⟩
  · rw [hv2]
    exact Finset.mem_insert_of_mem (Finset.mem_insert_self A _)
  · rw [hv2]
    exact Finset.mem_insert_self B _

theorem present_additive_witness :
    stateValues (stepPresent cfgW zenvW grW esW "example.com" "t" "kB"
        (stepPresent cfgW zenvW grW esW "example.com" "t" "kA" none))
      = insert "kB" (insert "kA" (stateValues none)) :=
  (present_additive cfgW zenvW grW esW "example.com" "t" "t" "kA" "kB"
    "_acme-challenge.example.com." "example.com" "_acme-challenge" "kA" "kB" none
    rfl rfl rfl rfl).2.1

/-- An environment whose record-set delete reports a not-found response;
everything before the delete succeeds. -/
def env404Delete : Env :=
  { zoneEnv := zenvW
    getRecord := grW
    newRecordSetsClient := .ok ()
    extractSubDomain := esW
    recordSetsGet := fun _ _ _ => .ok RecordSet.zero
    createOrUpdate := fun _ _ _ _ => .ok ()
    delete := fun _ _ _ => .error (.response 404 "record set not found") }

/-- An environment whose record-set delete fails with a non-404 error. -/
def envOtherDelete : Env :=
  { env404Delete with delete := fun _ _ _ => .error (.other "network failure") }

/-- C1 counterexample: with a backend whose delete reports not-found (the
record set is already absent), CleanUp returns an azure-wrapped error, not
success. -/
theorem cleanUp_not_found_delete_errors :
    isNotFoundError (.response 404 "record set not found") = true ∧
    CleanUp cfgW env404Delete "example.com" "token" "keyAuth" =
      (.error (.azure (.response 404 "record set not found")),
       [.delete "rg" "example.com" "_acme-challenge"]) :=
  ⟨rfl, rfl⟩

/-- C1 (amended): CleanUp propagates every backend delete error, a not-found
response included, as an azure-wrapped error, and succeeds exactly when the
delete call succeeds; the source has no not-found special-casing on the
delete path. -/
theorem cleanUp_delete_error_propagates (cfg : Config) (env : Env)
    (d t k zone subDomain : String)
    (hz : (getHostedZoneID cfg env.zoneEnv (env.getRecord d k).1).1 = .ok zone)
    (hs : env.extractSubDomain (env.getRecord d k).1 zone = .ok subDomain)
    (hc : env.newRecordSetsClient = .ok ()) :
    (∀ e, env.delete cfg.ResourceGroup zone subDomain = .error e →
        CleanUp cfg env d t k =
          (.error (.azure e), [.delete cfg.ResourceGroup zone subDomain]))
    ∧ (env.delete cfg.ResourceGroup zone subDomain = .ok () →
        CleanUp cfg env d t k =
          (.ok (), [.delete cfg.ResourceGroup zone subDomain])) := by
  constructor
  · intro e he
    simp [CleanUp, hz, hs, hc, he]
  · intro he
    simp [CleanUp, hz, hs, hc, he]

theorem cleanUp_delete_error_propagates_witness :
    CleanUp cfgW envOtherDelete "example.com" "token" "keyAuth" =
      (.error (.azure (.other "network failure")),
       [.delete "rg" "example.com" "_acme-challenge"]) :=
  (cleanUp_delete_error_propagates cfgW envOtherDelete "example.com" "token"
    "keyAuth" "example.com" "_acme-challenge" rfl rfl rfl).1
    (.other "network failure") rfl

/-- An environment whose record-set read reports a not-found response;
everything else succeeds. -/
def env404Get : Env :=
  { zoneEnv := zenvW
    getRecord := grW
    newRecordSetsClient := .ok ()
    extractSubDomain := esW
    recordSetsGet := fun _ _ _ => .error (.response 404 "record set not found")
    createOrUpdate := fun _ _ _ _ => .ok ()
    delete := fun _ _ _ => .ok () }

/-- An environment whose record-set read fails with a non-404 error. -/
def envBrokenGet : Env :=
  { env404Get with recordSetsGet := fun _ _ _ => .error (.other "read timeout") }

/-- C2: a read error with not-found status is tolerated: Present continues
with the Go zero record set, the upsert it issues carries exactly the new
value, and the written record appears in the trace; any other read error is
azure-wrapped and returned with no write issued (the trace holds only the
read). -/
theorem present_read_not_found_tolerated (cfg : Config) (env : Env)
    (d t k zone subDomain : String) (e : AzError)
    (hz : (getHostedZoneID cfg env.zoneEnv (env.getRecord d k).1).1 = .ok zone)
    (hc : env.newRecordSetsClient = .ok ())
    (hs : env.extractSubDomain (env.getRecord d k).1 zone = .ok subDomain)
    (hg : env.recordSetsGet cfg.ResourceGroup zone subDomain = .error e) :
    (isNotFoundError e = true →
        Present cfg env d t k =
          presentUpsert cfg env zone subDomain (env.getRecord d k).2 RecordSet.zero
        ∧ buildUniqRecords (env.getRecord d k).2 RecordSet.zero
            = [(env.getRecord d k).2]
        ∧ writtenRecord (Present cfg env d t k).2
            = some (mkRecordSet subDomain cfg.TTL [(env.getRecord d k).2]))
    ∧ (isNotFoundError e = false →
        Present cfg env d t k =
          (.error (.azure e), [.get cfg.ResourceGroup zone subDomain])) := by
  constructor
  · intro h404
    have hp : Present cfg env d t k =
        presentUpsert cfg env zone subDomain (env.getRecord d k).2 RecordSet.zero := by
      simp [Present, hz, hc, hs, hg, h404]
    refine ⟨hp, rfl, ?_⟩
    rw [hp]
    have hb : buildUniqRecords (env.getRecord d k).2 RecordSet.zero
        = [(env.getRecord d k).2] := rfl
    cases hcu : env.createOrUpdate cfg.ResourceGroup zone subDomain
        (mkRecordSet subDomain cfg.TTL [(env.getRecord d k).2]) <;>
      simp [presentUpsert, writtenRecord, hb, hcu]
  · intro hother
    simp [Present, hz, hc, hs, hg, hother]

theorem present_read_not_found_tolerated_witness :
    Present cfgW env404Get "example.com" "token" "keyAuth" =
      presentUpsert cfgW env404Get "example.com" "_acme-challenge" "keyAuth"
        RecordSet.zero
    ∧ Present cfgW envBrokenGet "example.com" "token" "keyAuth" =
      (.error (.azure (.other "read timeout")),
       [.get "rg" "example.com" "_acme-challenge"]) := by
  constructor
  · exact ((present_read_not_found_tolerated cfgW env404Get "example.com" "token"
      "keyAuth" "example.com" "_acme-challenge"
      (.response 404 "record set not found") rfl rfl rfl rfl).1 rfl).1
  · exact (present_read_not_found_tolerated cfgW envBrokenGet "example.com" "token"
      "keyAuth" "example.com" "_acme-challenge"
      (.other "read timeout") rfl rfl rfl rfl).2 rfl

/-- C6: only the first string of each multi-string TXT entry participates in
deduplication and in the reconstructed record set: extraction and the merged
value list are unchanged when the extra strings of such an entry are dropped,
and every entry of the rebuilt record set carries exactly one string, so the
remaining strings are never carried over. -/
theorem present_multi_string_first_only (value n : String) (ttl : Int)
    (a : String) (rest : List (Option String)) (l1 l2 : List TxtRecord)
    (rset : RecordSet) :
    firstStrings (l1 ++ ⟨some a :: rest⟩ :: l2)
      = firstStrings (l1 ++ ⟨[some a]⟩ :: l2)
    ∧ buildUniqRecords value
        ⟨some n, some ⟨some ttl, some (l1 ++ ⟨some a :: rest⟩ :: l2)⟩⟩
      = buildUniqRecords value
        ⟨some n, some ⟨some ttl, some (l1 ++ ⟨[some a]⟩ :: l2)⟩⟩
    ∧ ∀ r ∈ mkTxtRecords (buildUniqRecords value rset), ∃ s, r.Value = [some s] := by
  have hfs : firstStrings (l1 ++ ⟨some a :: rest⟩ :: l2)
      = firstStrings (l1 ++ ⟨[some a]⟩ :: l2) := by
    simp [firstStrings, List.filterMap_append, List.filterMap_cons, firstString]
  refine ⟨hfs, ?_, ?_⟩
  · simp [buildUniqRecords, RecordSet.extractValues, hfs]
  · intro r hr
    simp only [mkTxtRecords, List.mem_map] at hr
    obtain ⟨s, hs, rfl⟩ := hr
    exact ⟨s, rfl⟩

theorem present_multi_string_first_only_witness :
    firstStrings [⟨[some "abc123", some "extra"]⟩] = firstStrings [⟨[some "abc123"]⟩]
    ∧ ∃ s, (⟨[some "v"]⟩ : TxtRecord).Value = [some s] :=
  ⟨(present_multi_string_first_only "v" "n" 60 "abc123" [some "extra"] [] []
      RecordSet.zero).1,
   (present_multi_string_first_only "v" "n" 60 "abc123" [some "extra"] [] []
      RecordSet.zero).2.2 ⟨[some "v"]⟩ (by decide)⟩

/-- C9: a malformed TXT entry, one whose string slice is empty or whose first
string is nil, contributes no value: extraction and the merged value list are
the same as if the entry were absent, so it is dropped from the record set
that is written back. -/
theorem present_malformed_entry_dropped (value n : String) (ttl : Int)
    (r : TxtRecord) (l1 l2 : List TxtRecord)
    (h : r.Value = [] ∨ ∃ rest, r.Value = none :: rest) :
    firstStrings (l1 ++ r :: l2) = firstStrings (l1 ++ l2)
    ∧ buildUniqRecords value ⟨some n, some ⟨some ttl, some (l1 ++ r :: l2)⟩⟩
      = buildUniqRecords value ⟨some n, some ⟨some ttl, some (l1 ++ l2)⟩⟩ := by
  have hr : firstString r = none := by
    rcases h with h | ⟨rest, h⟩ <;> simp [firstString, h]
  have hfs : firstStrings (l1 ++ r :: l2) = firstStrings (l1 ++ l2) := by
    simp [firstStrings, List.filterMap_append, List.filterMap_cons, hr]
  exact ⟨hfs, by simp [buildUniqRecords, RecordSet.extractValues, hfs]⟩

theorem present_malformed_entry_dropped_witness :
    firstStrings [⟨[]⟩, ⟨[some "abc123"]⟩] = firstStrings [⟨[some "abc123"]⟩]
    ∧ firstStrings [⟨[none, some "x"]⟩, ⟨[some "abc123"]⟩]
        = firstStrings [⟨[some "abc123"]⟩] :=
  ⟨(present_malformed_entry_dropped "v" "n" 60 ⟨[]⟩ [] [⟨[some "abc123"]⟩]
      (Or.inl rfl)).1,
   (present_malformed_entry_dropped "v" "n" 60 ⟨[none, some "x"]⟩ []
      [⟨[some "abc123"]⟩] (Or.inr ⟨[some "x"], rfl⟩)).1⟩

/-- A configuration failing the SubscriptionID validation. -/
def cfgMissingSub : Config :=
  { cfgW with SubscriptionID := "" }

/-- C7 counterexample: a credential-construction failure inside
NewDNSProviderConfig is wrapped with the azidentity prefix, so the error
string does not carry the azure prefix. -/
theorem credential_error_not_azure_wrapped :
    NewDNSProviderConfig ⟨some "boom"⟩ (some cfgW)
      = .error (.credentialFailed "boom")
    ∧ (ProviderError.credentialFailed "boom").render
        = "azidentity.NewEnvironmentCredential failed: boom"
    ∧ List.isPrefixOf "azure: ".data
        (ProviderError.credentialFailed "boom").render.data = false :=
  ⟨rfl, rfl, by decide⟩

/-- C7 (amended): every error returned by Present and CleanUp is the
azure-wrapped form of an underlying error, and construction errors are
azure-prefixed messages, except that a credential-construction failure in
NewDNSProviderConfig is wrapped with the azidentity prefix instead; the
render equations exhibit the fixed prefixes. -/
theorem errors_wrapping_classified (cfg : Config) (env : Env)
    (o : CredentialOracle) (d t k : String) :
    (∀ pe tr, Present cfg env d t k = (.error pe, tr) → ∃ e, pe = .azure e)
    ∧ (∀ pe tr, CleanUp cfg env d t k = (.error pe, tr) → ∃ e, pe = .azure e)
    ∧ (∀ c pe, NewDNSProviderConfig o c = .error pe →
        (∃ m, pe = .azureMsg m) ∨ (∃ m, pe = .credentialFailed m))
    ∧ (∀ ev pe, NewDNSProvider o ev = .error pe →
        (∃ m, pe = .azureMsg m) ∨ (∃ m, pe = .credentialFailed m))
    ∧ (∀ e, (ProviderError.azure e).render = "azure: " ++ e.message)
    ∧ (∀ m, (ProviderError.azureMsg m).render = "azure: " ++ m)
    ∧ (∀ m, (ProviderError.credentialFailed m).render
        = "azidentity.NewEnvironmentCredential failed: " ++ m) := by
  have hconf : ∀ c pe, NewDNSProviderConfig o c = .error pe →
      (∃ m, pe = .azureMsg m) ∨ (∃ m, pe = .credentialFailed m) := by
    intro c pe h
    cases c with
    | none =>
        simp only [NewDNSProviderConfig] at h
        injection h with h1
        exact Or.inl ⟨_, h1.symm⟩
    | some cfg0 =>
        simp only [NewDNSProviderConfig] at h
        by_cases hs1 : (fillHTTPClient cfg0).SubscriptionID = ""
        · rw [if_pos hs1] at h
          injection h with h1
          exact Or.inl ⟨_, h1.symm⟩
        · rw [if_neg hs1] at h
          by_cases hs2 : (fillHTTPClient cfg0).ResourceGroup = ""
          · rw [if_pos hs2] at h
            injection h with h1
            exact Or.inl ⟨_, h1.symm⟩
          · rw [if_neg hs2] at h
            cases hf : o.failure with
            | some m =>
                simp only [NewEnvironmentCredential, hf] at h
                injection h with h1
                exact Or.inr ⟨_, h1.symm⟩
            | none =>
                simp only [NewEnvironmentCredential, hf] at h
                exact Except.noConfusion h
  refine ⟨?_, ?_, hconf, ?_, fun e => rfl, fun m => rfl, fun m => rfl⟩
  · intro pe tr h
    cases hz : (getHostedZoneID cfg env.zoneEnv (env.getRecord d k).1).1 with
    | error e =>
        simp [Present, hz] at h
        exact ⟨e, h.1.symm⟩
    | ok zone =>
      cases hc : env.newRecordSetsClient with
      | error e =>
          simp [Present, hz, hc] at h
          exact ⟨e, h.1.symm⟩
      | ok u =>
        cases hs : env.extractSubDomain (env.getRecord d k).1 zone with
        | error e =>
            simp [Present, hz, hc, hs] at h
            exact ⟨e, h.1.symm⟩
        | ok subDomain =>
          cases hg : env.recordSetsGet cfg.ResourceGroup zone subDomain with
          | error e =>
              by_cases h404 : isNotFoundError e = true
              · cases hcu : env.createOrUpdate cfg.ResourceGroup zone subDomain
                    (mkRecordSet subDomain cfg.TTL
                      (buildUniqRecords (env.getRecord d k).2 RecordSet.zero)) with
                | error e2 =>
                    simp [Present, presentUpsert, hz, hc, hs, hg, h404, hcu] at h
                    exact ⟨e2, h.1.symm⟩
                | ok u2 =>
                    simp [Present, presentUpsert, hz, hc, hs, hg, h404, hcu] at h
              · simp [Present, hz, hc, hs, hg, h404] at h
                exact ⟨e, h.1.symm⟩
          | ok rset =>
              cases hcu : env.createOrUpdate cfg.ResourceGroup zone subDomain
                  (mkRecordSet subDomain cfg.TTL
                    (buildUniqRecords (env.getRecord d k).2 rset)) with
              | error e2 =>
                  simp [Present, presentUpsert, hz, hc, hs, hg, hcu] at h
                  exact ⟨e2, h.1.symm⟩
              | ok u2 =>
                  simp [Present, presentUpsert, hz, hc, hs, hg, hcu] at h
  · intro pe tr h
    cases hz : (getHostedZoneID cfg env.zoneEnv (env.getRecord d k).1).1 with
    | error e =>
        simp [CleanUp, hz] at h
        exact ⟨e, h.1.symm⟩
    | ok zone =>
      cases hs : env.extractSubDomain (env.getRecord d k).1 zone with
      | error e =>
          simp [CleanUp, hz, hs] at h
          exact ⟨e, h.1.symm⟩
      | ok subDomain =>
        cases hc : env.newRecordSetsClient with
        | error e =>
            simp [CleanUp, hz, hs, hc] at h
            exact ⟨e, h.1.symm⟩
        | ok u =>
          cases hd : env.delete cfg.ResourceGroup zone subDomain with
          | error e =>
              simp [CleanUp, hz, hs, hc, hd] at h
              exact ⟨e, h.1.symm⟩
          | ok u2 =>
              simp [CleanUp, hz, hs, hc, hd] at h
  · intro ev pe h
    simp only [NewDNSProvider] at h
    by_cases he : ev.environment ≠ ""
    · rw [if_pos he] at h
      cases hec : envCloud ev.environment with
      | none =>
          rw [hec] at h
          injection h with h1
          exact Or.inl ⟨_, h1.symm⟩
      | some environment =>
          rw [hec] at h
          exact hconf _ _ h
    · rw [if_neg he] at h
      exact hconf _ _ h

theorem errors_wrapping_classified_witness :
    (∃ e, ProviderError.azure (AzError.other "read timeout")
        = ProviderError.azure e)
    ∧ ((∃ m, ProviderError.azureMsg "SubscriptionID is missing"
          = ProviderError.azureMsg m)
        ∨ (∃ m, ProviderError.azureMsg "SubscriptionID is missing"
          = ProviderError.credentialFailed m)) :=
  ⟨(errors_wrapping_classified cfgW envBrokenGet ⟨none⟩ "example.com" "t" "k").1
     (.azure (.other "read timeout"))
     [.get "rg" "example.com" "_acme-challenge"] rfl,
   (errors_wrapping_classified cfgW envBrokenGet ⟨none⟩ "example.com" "t" "k").2.2.1
     (some cfgMissingSub) (.azureMsg "SubscriptionID is missing") rfl⟩

/-- C10: for every accepted configuration, the credential stored in the
provider and used for all backend calls is constructed with the AzureChina
cloud configuration, whatever the CloudConfig of the supplied configuration,
the environment-selected value of NewDNSProvider included. -/
theorem credential_cloud_always_china (o : CredentialOracle) :
    (∀ c p, NewDNSProviderConfig o c = .ok p →
        p.provider.authorizer.cloud = AzureChina)
    ∧ (∀ ev p, NewDNSProvider o ev = .ok p →
        p.provider.authorizer.cloud = AzureChina) := by
  have hconf : ∀ c p, NewDNSProviderConfig o c = .ok p →
      p.provider.authorizer.cloud = AzureChina := by
    intro c p h
    cases c with
    | none =>
        simp only [NewDNSProviderConfig] at h
        exact Except.noConfusion h
    | some cfg0 =>
        simp only [NewDNSProviderConfig] at h
        by_cases hs1 : (fillHTTPClient cfg0).SubscriptionID = ""
        · rw [if_pos hs1] at h
          exact Except.noConfusion h
        · rw [if_neg hs1] at h
          by_cases hs2 : (fillHTTPClient cfg0).ResourceGroup = ""
          · rw [if_pos hs2] at h
            exact Except.noConfusion h
          · rw [if_neg hs2] at h
            cases hf : o.failure with
            | some m =>
                simp only [NewEnvironmentCredential, hf] at h
                exact Except.noConfusion h
            | none =>
                simp only [NewEnvironmentCredential, hf] at h
                injection h with h1
                subst h1
                rfl
  refine ⟨hconf, ?_⟩
  intro ev p h
  simp only [NewDNSProvider] at h
  by_cases he : ev.environment ≠ ""
  · rw [if_pos he] at h
    cases hec : envCloud ev.environment with
    | none =>
        rw [hec] at h
        exact Except.noConfusion h
    | some environment =>
        rw [hec] at h
        exact hconf _ _ h
  · rw [if_neg he] at h
    exact hconf _ _ h

/-- Environment variables selecting the public cloud explicitly. -/
def evPublic : EnvVars :=
  { environment := "public"
    subscriptionID := "subscription-1"
    resourceGroup := "rg"
    clientSecret := ""
    clientID := ""
    tenantID := ""
    privateZone := none
    zoneName := ""
    ttl := none
    propagationTimeout := none
    pollingInterval := none }

/-- The provider NewDNSProvider builds for evPublic: the configuration keeps
the environment-selected AzurePublic cloud, the credential records the
hardcoded AzureChina one. -/
def providerPublic : DNSProvider :=
  ⟨⟨fillHTTPClient (applyEnvFields
      { NewDefaultConfig evPublic with CloudConfig := AzurePublic } evPublic),
    ⟨AzureChina⟩⟩⟩

theorem credential_cloud_always_china_witness :
    NewDNSProvider ⟨none⟩ evPublic = .ok providerPublic
    ∧ providerPublic.provider.config.CloudConfig = AzurePublic
    ∧ providerPublic.provider.authorizer.cloud = AzureChina :=
  ⟨rfl, rfl, (credential_cloud_always_china ⟨none⟩).2 evPublic providerPublic rfl⟩

end AzureDNS
